import Mathlib

/-!
Verification of the candidate-generation / selection / publishing pipeline of
the aipodflow repository, shallowly embedded in Lean 4.

Go strings are modelled as lists of characters (`Str := List Char`); the
character-level model agrees with Go byte-level indexing on every code path
exercised here, because the numbering-strip branch only fires when the first
two characters are single-byte ASCII.  Fallible Go functions returning
`(T, error)` are modelled as `Except`-valued Lean functions, with the
outcomes of external collaborators (the OpenAI completion call, HTTP fetches,
interactive prompts) passed in explicitly as arguments.
-/

set_option autoImplicit false

namespace AIPodFlow

/-- Go strings, modelled as their sequence of runes. -/
abbrev Str := List Char

/-- Go `unicode.IsSpace`: the Unicode white-space runes recognised by
`strings.TrimSpace`. -/
def goIsSpace (c : Char) : Bool :=
  c == ' ' || c == '\t' || c == '\n' || c == '\x0b' || c == '\x0c' || c == '\r' ||
  c == '\u0085' || c == '\u00A0' || c == '\u1680' ||
  (decide (0x2000 ≤ c.toNat) && decide (c.toNat ≤ 0x200A)) ||
  c == '\u2028' || c == '\u2029' || c == '\u202F' || c == '\u205F' || c == '\u3000'

/-- Go `strings.TrimSpace`: drop white space from both ends. -/
def trimSpace (s : Str) : Str :=
  ((s.dropWhile goIsSpace).reverse.dropWhile goIsSpace).reverse

/-- Go `strings.Split(s, "\n")`: split on every newline, keeping empty
fields (`Split` of the empty string yields one empty field). -/
def splitOnNL : Str → List Str
  | [] => [[]]
  | c :: rest =>
    match splitOnNL rest with
    | [] => [[c]]
    | l :: ls => if c = '\n' then [] :: l :: ls else (c :: l) :: ls

/-- The byte-range check `title[0] >= '0' && title[0] <= '9'` from
`AIService.GenerateTitles`. -/
def isAsciiDigit (c : Char) : Bool :=
  decide ('0' ≤ c) && decide (c ≤ '9')

/-- The numbering-removal step of `AIService.GenerateTitles`
(src/services/ai_service.go, second revision; src/unnamed/part_013):
`if len(title) > 2 && (digit) && (title[1] == '.' || ':' || ')') then
title = TrimSpace(title[2:])`. -/
def stripNumbering (t : Str) : Str :=
  match t with
  | c0 :: c1 :: c2 :: rest =>
    if isAsciiDigit c0 && (c1 == '.' || c1 == ':' || c1 == ')') then
      trimSpace (c2 :: rest)
    else t
  | _ => t

/-- The candidate-collection loop of `AIService.GenerateTitles`: skip blank
lines, trim, strip a leading numbering, append, and stop once ten
candidates are collected. -/
def collectTitles : List Str → List Str → List Str
  | [], acc => acc
  | t :: ts, acc =>
    if trimSpace t = [] then collectTitles ts acc
    else
      let acc2 := acc ++ [stripNumbering (trimSpace t)]
      if 10 ≤ acc2.length then acc2 else collectTitles ts acc2

/-- The hardcoded `defaultTitles` list of `AIService.GenerateTitles`. -/
def defaultTitles : List Str :=
  [ "今週のトピック：最新テクノロジーと子育ての融合".data
  , "デジタル時代の子育て：テクノロジーとの上手な付き合い方".data
  , "スマートな家庭作り：ITツールを活用した新しい子育てスタイル".data
  , "ワーキングマザーのためのテクノロジー活用術".data
  , "子育てとキャリアの両立：ITツールで効率化".data
  , "次世代の子育て：デジタルネイティブを育てる".data
  , "デジタルツールで変わる家族のコミュニケーション".data
  , "テクノロジーでハッピーに：子育ての新しいアプローチ".data
  , "スマートホームと子育て：便利で安全な環境づくり".data
  , "デジタル時代の子育てバランス：スクリーンタイムと実体験".data ]

/-- The padding loop
`for i := len(result); i < 10; i++ { result = append(result, defaultTitles[i-len(result)]) }`,
with the loop counter `i` and the growing `result` passed explicitly; the
first argument is structural fuel (ten iterations always suffice, since the
loop body runs at most `10 - i` times). -/
def padLoopAux : Nat → Nat → List Str → List Str
  | 0, _, res => res
  | k + 1, i, res =>
    if i < 10 then
      padLoopAux k (i + 1) (res ++ [defaultTitles.getD (i - res.length) []])
    else res

/-- Entry into the padding loop at `i = len(result)`. -/
def padTitles (res : List Str) : List Str :=
  padLoopAux 10 res.length res

/-- The candidates obtained from the completion response before padding:
`strings.Split(strings.TrimSpace(responseText), "\n")` fed through the
collection loop. -/
def obtainedCandidates (responseText : Str) : List Str :=
  collectTitles (splitOnNL (trimSpace responseText)) []

/-- The pure tail of `AIService.GenerateTitles` after a successful API call:
parse the response into candidates and pad to ten with default titles. -/
def generateTitlesFrom (responseText : Str) : List Str :=
  let result := obtainedCandidates responseText
  if result.length < 10 then padTitles result else result

/-- Error outcome of `AIService.GenerateTitles`: the only error path is a
failed completion-API call. -/
inductive TitlesError
  | apiError
deriving DecidableEq

/-- `AIService.GenerateTitles` (src/services/ai_service.go, second revision;
src/unnamed/part_013): on an API error, fail; otherwise parse the response
text and pad the candidate list to ten entries. -/
def generateTitles : Except Unit Str → Except TitlesError (List Str)
  | .error _ => .error .apiError
  | .ok responseText => .ok (generateTitlesFrom responseText)

/-- A completion response whose every line is blank. -/
def blankResp : Str := ['\n', ' ', '\n']

/-- `model.ContentCandidates` (src/internal/model/content.go). -/
structure ContentCandidates where
  titles : List Str
  showNotes : List Str
  adTimecodes : List (List Str)
deriving DecidableEq

/-- `model.SelectedContent` (src/internal/model/content.go). -/
structure SelectedContent where
  title : Str
  showNote : Str
  adTimecodes : List Str
deriving DecidableEq

/-- Outcomes of the two AI-service calls available to
`ContentProcessor.GenerateCandidates`: each is either an error or the
returned candidate list. -/
structure AIOracle where
  titlesResult : Except Unit (List Str)
  showNotesResult : Except Unit (List Str)

/-- `ContentProcessor.GenerateCandidates` (src/unnamed/part_005): generate
titles (propagate failure), return early with empty show notes when
`generateShowNotes` is false, and otherwise recover locally from a
show-note failure by storing an empty show-note list.  The second
component counts how many show-note generation calls were made. -/
def generateCandidates (o : AIOracle) (generateShowNotes : Bool) :
    Except Unit ContentCandidates × Nat :=
  match o.titlesResult with
  | .error e => (.error e, 0)
  | .ok titles =>
    if !generateShowNotes then
      (.ok { titles := titles, showNotes := [], adTimecodes := [] }, 0)
    else
      match o.showNotesResult with
      | .error _ =>
        (.ok { titles := titles, showNotes := [], adTimecodes := [] }, 1)
      | .ok showNotes =>
        (.ok { titles := titles, showNotes := showNotes, adTimecodes := [] }, 1)

/-- `InteractiveUI.SelectContent`, display-only revision
(src/unnamed/part_008, second revision): print all candidates, then
automatically select the first title and the first show note (empty string
when a list is empty), with no prompting and no failure path. -/
def selectContentDisplay (candidates : ContentCandidates) :
    Except Unit SelectedContent :=
  let title : Str :=
    match candidates.titles with
    | [] => []
    | t :: _ => t
  let showNote : Str :=
    match candidates.showNotes with
    | [] => []
    | n :: _ => n
  .ok { title := title, showNote := showNote, adTimecodes := [] }

/-- The answers a user gives to the interactive prompts of
`InteractiveUI.SelectContent` (src/internal/ui/interactive.go).  Prompt I/O
failures (the `survey.AskOne` error returns) are not modelled: every prompt
is assumed to reach the user and yield one of these answers. -/
structure UserAnswers where
  editTitle : Bool
  editedTitle : Str
  editShowNote : Bool
  editedShowNote : Str
  adIndex : Nat
  confirm : Bool

/-- Error outcomes of the interactive `SelectContent`:
`promptFailed` models the ad-timecode `survey.Select` failing (it errors
when offered an out-of-range choice, e.g. an empty option list), and
`userCancelled` models `fmt.Errorf("user cancelled the operation")`. -/
inductive SelectError
  | promptFailed
  | userCancelled
deriving DecidableEq

/-- `InteractiveUI.SelectContent` (src/internal/ui/interactive.go, first
revision): propose `titles[0]` (or empty), optionally edit; propose
`showNotes[0]` (or empty), optionally edit; select an ad timecode row; ask
for final confirmation and fail with the user-cancelled error when it is
declined. -/
def selectContentInteractive (candidates : ContentCandidates)
    (u : UserAnswers) : Except SelectError SelectedContent :=
  let proposedTitle : Str :=
    match candidates.titles with
    | [] => []
    | t :: _ => t
  let title := if u.editTitle then u.editedTitle else proposedTitle
  let proposedNote : Str :=
    match candidates.showNotes with
    | [] => []
    | n :: _ => n
  let showNote := if u.editShowNote then u.editedShowNote else proposedNote
  match candidates.adTimecodes.get? u.adIndex with
  | none => .error .promptFailed
  | some ad =>
    if u.confirm then
      .ok { title := title, showNote := showNote, adTimecodes := ad }
    else .error .userCancelled

/-- The outbound calls `Art19Processor.UploadDraft` can make on the Art19
service. -/
inductive Art19Call
  | uploadDraftTitle (title : Str)
  | publishEpisode (audioPath : Str) (title : Str) (showNote : Str)
deriving DecidableEq

/-- Whether a recorded Art19 call is the full content+media publish. -/
def Art19Call.isPublishEpisode : Art19Call → Bool
  | .publishEpisode _ _ _ => true
  | _ => false

/-- `Art19Processor.UploadDraft`, draft-title revision
(src/internal/processor/art19.go): with an empty audio path, upload only
the title as a draft; otherwise perform the full `PublishEpisode` upload.
The service outcomes are passed in; the second component records the calls
made. -/
def uploadDraft (audioPath : Str) (content : SelectedContent)
    (draftTitleResult : Except Unit Unit) (publishResult : Except Unit Unit) :
    Except Unit Unit × List Art19Call :=
  if audioPath = [] then
    match draftTitleResult with
    | .error e => (.error e, [.uploadDraftTitle content.title])
    | .ok _ => (.ok (), [.uploadDraftTitle content.title])
  else
    match publishResult with
    | .error e =>
      (.error e, [.publishEpisode audioPath content.title content.showNote])
    | .ok _ =>
      (.ok (), [.publishEpisode audioPath content.title content.showNote])

/-- `Art19Processor.UploadDraft`, skip-and-log revision
(src/internal/processor/content.go, third section): with an empty audio
path, log and return success without contacting Art19 at all; otherwise
perform the full `PublishEpisode` upload. -/
def uploadDraftSkip (audioPath : Str) (content : SelectedContent)
    (publishResult : Except Unit Unit) :
    Except Unit Unit × List Art19Call :=
  if audioPath = [] then (.ok (), [])
  else
    match publishResult with
    | .error e =>
      (.error e, [.publishEpisode audioPath content.title content.showNote])
    | .ok _ =>
      (.ok (), [.publishEpisode audioPath content.title content.showNote])

/-- An outbound POST of the redeploy stage. -/
inductive RedeployCall
  | post (url : Str)
deriving DecidableEq

/-- `VercelService.TriggerRedeploy` (src/unnamed/part_012): fail before any
call when the hook URL is empty; otherwise POST to it, succeeding exactly
on a 2xx status.  `httpResult` is the transport outcome (`.error` for a
transport failure, `.ok status` for a response); the second component
records the POSTs made. -/
def triggerRedeploy (deployHookURL : Str) (httpResult : Except Unit Nat) :
    Except Unit Unit × List RedeployCall :=
  if deployHookURL = [] then (.error (), [])
  else
    match httpResult with
    | .error e => (.error e, [.post deployHookURL])
    | .ok status =>
      if status < 200 ∨ 300 ≤ status then (.error (), [.post deployHookURL])
      else (.ok (), [.post deployHookURL])

/-- The body of `Step3Cmd` (src/internal/cli/steps.go) after logger setup:
fail when `VERCEL_DEPLOY_HOOK` is unset, regardless of dry-run; in dry-run
mode only log; otherwise delegate to `TriggerRedeploy` (whose service holds
the same URL read from the environment). -/
def step3Run (deployHookURL : Str) (dryRun : Bool)
    (httpResult : Except Unit Nat) : Except Unit Unit × List RedeployCall :=
  if deployHookURL = [] then (.error (), [])
  else if dryRun then (.ok (), [])
  else triggerRedeploy deployHookURL httpResult

/-- Alphanumeric runes, the character class of the Spotify episode
pattern. -/
def isAlnum (c : Char) : Bool :=
  isAsciiDigit c || (decide ('a' ≤ c) && decide (c ≤ 'z')) ||
  (decide ('A' ≤ c) && decide (c ≤ 'Z'))

/-- The literal head of the Spotify episode pattern
`https://open\.spotify\.com/episode/[a-zA-Z0-9]+`. -/
def spotifyLit : Str := "https://open.spotify.com/episode/".data

/-- A match of the Spotify episode pattern anchored at the start of `s`:
the literal head followed by a maximal non-empty alphanumeric run (the
greedy `+`). -/
def spotifyMatchAt (s : Str) : Option Str :=
  if spotifyLit.isPrefixOf s then
    let run := (s.drop spotifyLit.length).takeWhile isAlnum
    if run = [] then none else some (spotifyLit ++ run)
  else none

/-- `regexp.FindStringSubmatch` for the Spotify episode pattern: the
leftmost match, or `none` when the document contains no match. -/
def findSpotifyURL : Str → Option Str
  | [] => none
  | c :: rest =>
    match spotifyMatchAt (c :: rest) with
    | some m => some m
    | none => findSpotifyURL rest

/-- `SNSService.GetLatestSpotifyURL` (src/services/sns_service.go) after the
show-page fetch: propagate a fetch failure; otherwise return the first
episode deep link found in the body, falling back to the show URL (with no
error) when the pattern does not occur. -/
def getLatestSpotifyURL (showURL : Str) (fetched : Except Unit Str) :
    Except Unit Str :=
  match fetched with
  | .error e => .error e
  | .ok body =>
    match findSpotifyURL body with
    | none => .ok showURL
    | some episodeURL => .ok episodeURL

/-- The literal head of the Apple Podcasts episode pattern
`https://podcasts\.apple\.com/us/podcast/[^"]+/id1589345170\?i=[0-9]+`. -/
def appleLitA : Str := "https://podcasts.apple.com/us/podcast/".data

/-- The literal middle of the Apple Podcasts episode pattern. -/
def appleLitB : Str := "/id1589345170?i=".data

/-- Backtracking over the greedy `[^"]+` of the Apple pattern: try the
segment lengths from longest to shortest, and at each one require the
literal middle followed by a non-empty maximal digit run. -/
def appleTryLens (rest : Str) : Nat → Option Str
  | 0 => none
  | k + 1 =>
    let after := rest.drop (k + 1)
    if appleLitB.isPrefixOf after then
      let digits := (after.drop appleLitB.length).takeWhile isAsciiDigit
      if digits = [] then appleTryLens rest k
      else some (appleLitA ++ rest.take (k + 1) ++ appleLitB ++ digits)
    else appleTryLens rest k

/-- A match of the Apple Podcasts episode pattern anchored at the start of
`s`: the literal head, then a non-empty quote-free segment, the literal
middle, and a non-empty digit run. -/
def appleMatchAt (s : Str) : Option Str :=
  if appleLitA.isPrefixOf s then
    let rest := s.drop appleLitA.length
    appleTryLens rest (rest.takeWhile (fun c => c != '"')).length
  else none

/-- `regexp.FindStringSubmatch` for the Apple Podcasts episode pattern: the
leftmost match, or `none` when the document contains no match. -/
def findAppleURL : Str → Option Str
  | [] => none
  | c :: rest =>
    match appleMatchAt (c :: rest) with
    | some m => some m
    | none => findAppleURL rest

/-- `SNSService.GetLatestApplePodcastURL` (src/services/sns_service.go)
after the show-page fetch: propagate a fetch failure; otherwise return the
first episode deep link found in the body, falling back to the show URL
(with no error) when the pattern does not occur. -/
def getLatestApplePodcastURL (showURL : Str) (fetched : Except Unit Str) :
    Except Unit Str :=
  match fetched with
  | .error e => .error e
  | .ok body =>
    match findAppleURL body with
    | none => .ok showURL
    | some episodeURL => .ok episodeURL

/-- One `<item>` of the parsed RSS feed (src/services/sns_service.go,
`RSSFeed`). -/
structure RSSItem where
  title : Str
  link : Str
  description : Str
  pubDate : Str
  guid : Str
deriving DecidableEq

/-- The `<channel>` of the parsed RSS feed. -/
structure RSSChannel where
  title : Str
  description : Str
  items : List RSSItem
deriving DecidableEq

/-- The parsed RSS feed document. -/
structure RSSFeed where
  channel : RSSChannel
deriving DecidableEq

/-- `SNSService.GetLatestEpisodeTitle` (src/services/sns_service.go):
propagate a feed-fetch/parse failure; fail when the feed has no items;
otherwise return the title of the first item in document order. -/
def getLatestEpisodeTitle (fetched : Except Unit RSSFeed) :
    Except Unit Str :=
  match fetched with
  | .error e => .error e
  | .ok feed =>
    match feed.channel.items with
    | [] => .error ()
    | latestEpisode :: _ => .ok latestEpisode.title

end AIPodFlow

open AIPodFlow

/-- The candidate-collection loop never grows its accumulator past ten
entries when it starts below ten. -/
theorem collectTitles_length_le (ls : List Str) :
    ∀ acc : List Str, acc.length < 10 → (collectTitles ls acc).length ≤ 10 := by
  induction ls with
  | nil =>
    intro acc h
    rw [collectTitles]
    omega
  | cons t ts ih =>
    intro acc h
    rw [collectTitles]
    split
    · exact ih acc h
    · simp only
      split
      · simp only [List.length_append, List.length_singleton]
        omega
      · rename_i h10
        exact ih _ (by simp only [List.length_append, List.length_singleton] at h10 ⊢; omega)

/-- The padding loop, entered with the counter equal to the list length,
appends copies of the first default title until length ten. -/
theorem padLoopAux_eq (k : Nat) :
    ∀ (i : Nat) (res : List Str), res.length = i →
      padLoopAux k i res =
        res ++ List.replicate (min k (10 - i)) (defaultTitles.getD 0 []) := by
  induction k with
  | zero =>
    intro i res _
    rw [padLoopAux]
    simp
  | succ k ih =>
    intro i res hlen
    rw [padLoopAux]
    by_cases hi : i < 10
    · rw [if_pos hi]
      have h0 : i - res.length = 0 := by omega
      rw [h0, ih (i + 1) (res ++ [defaultTitles.getD 0 []]) (by simp [hlen])]
      rw [List.append_assoc]
      congr 1
      have hmin : min (k + 1) (10 - i) = min k (10 - (i + 1)) + 1 := by omega
      rw [hmin, List.replicate_succ]
      rfl
    · rw [if_neg hi]
      have hz : min (k + 1) (10 - i) = 0 := by omega
      simp [hz]

/-- `padTitles` pads with copies of the first default title, up to length
ten. -/
theorem padTitles_eq (res : List Str) :
    padTitles res =
      res ++ List.replicate (10 - res.length) (defaultTitles.getD 0 []) := by
  have h2 := padLoopAux_eq 10 res.length res rfl
  rwa [Nat.min_eq_right (by omega)] at h2

/-- C1 (amended): every successful title-generation call returns exactly ten
titles, and each returned title is either an obtained candidate or a copy of
the first entry of the hardcoded default-title list — the shortfall is
filled from the default list, not by repeating already-obtained
candidates. -/
theorem C1_titles_length_and_padding (responseText : Str) :
    (generateTitlesFrom responseText).length = 10 ∧
    ∀ t ∈ generateTitlesFrom responseText,
      t ∈ obtainedCandidates responseText ∨ t = defaultTitles.getD 0 [] := by
  simp only [generateTitlesFrom]
  by_cases h : (obtainedCandidates responseText).length < 10
  · rw [if_pos h, padTitles_eq]
    constructor
    · simp only [List.length_append, List.length_replicate]
      omega
    · intro t ht
      rcases List.mem_append.mp ht with h1 | h2
      · exact Or.inl h1
      · exact Or.inr (List.eq_of_mem_replicate h2)
  · rw [if_neg h]
    have hle : (obtainedCandidates responseText).length ≤ 10 :=
      collectTitles_length_le _ [] (by decide)
    exact ⟨by omega, fun t ht => Or.inl ht⟩

/-- C1 counterexample: on the response consisting of the single line `A`,
the padded result is not made of already-obtained candidates — the claim
that the shortfall is filled by repeating obtained candidates fails. -/
theorem C1_counterexample :
    ¬ ∀ t ∈ generateTitlesFrom "A".data, t ∈ obtainedCandidates "A".data := by
  decide

/-- C2 (amended): when zero title candidates are obtained (for instance
because every returned line is blank), `GenerateTitles` does not fail: it
returns ten copies of the first hardcoded default title with no error. -/
theorem C2_zero_candidates_still_ok (responseText : Str)
    (h : obtainedCandidates responseText = []) :
    generateTitles (Except.ok responseText) =
      Except.ok (List.replicate 10 (defaultTitles.getD 0 [])) := by
  show Except.ok (generateTitlesFrom responseText) = _
  simp only [generateTitlesFrom, h]
  rfl

/-- C2 counterexample: on a response whose every line is blank, the
operation does not return a generation-failure error. -/
theorem C2_counterexample :
    generateTitles (Except.ok blankResp) ≠ Except.error TitlesError.apiError := by
  simp [generateTitles]

/-- Witness for C2: evaluating the amended claim on the concrete all-blank
response. -/
theorem C2_witness :
    generateTitles (Except.ok blankResp) =
      Except.ok (List.replicate 10 (defaultTitles.getD 0 [])) :=
  C2_zero_candidates_still_ok blankResp (by decide)

/-- C3: when show-note generation is enabled and the show-note call fails,
`GenerateCandidates` still succeeds, with the title candidates populated and
an empty show-note sequence, rather than propagating the error. -/
theorem C3_shownote_failure_recovered (titles : List Str) :
    generateCandidates ⟨Except.ok titles, Except.error ()⟩ true =
      (Except.ok { titles := titles, showNotes := [], adTimecodes := [] }, 1) :=
  rfl

/-- C4: with `generateShowNotes = false`, `GenerateCandidates` returns right
after title generation with an empty show-note sequence and makes zero
show-note calls — the result does not depend on the show-note oracle at
all. -/
theorem C4_disabled_shownotes (titles : List Str)
    (showNotesResult : Except Unit (List Str)) :
    generateCandidates ⟨Except.ok titles, showNotesResult⟩ false =
      (Except.ok { titles := titles, showNotes := [], adTimecodes := [] }, 0) :=
  rfl

/-- C5: display-only selection deterministically returns the first title and
the first show note, or the empty string when the corresponding list is
empty, and never fails. -/
theorem C5_display_selects_first (candidates : ContentCandidates) :
    selectContentDisplay candidates =
      Except.ok { title := candidates.titles.headD []
                , showNote := candidates.showNotes.headD []
                , adTimecodes := [] } := by
  rcases candidates with ⟨ts, ns, ads⟩
  cases ts <;> cases ns <;> rfl

/-- C6: in interactive selection, declining the final confirmation makes the
operation fail with the user-cancelled error, so no `SelectedContent` is
produced. -/
theorem C6_decline_confirmation_cancels (candidates : ContentCandidates)
    (u : UserAnswers) (hconfirm : u.confirm = false)
    (had : u.adIndex < candidates.adTimecodes.length) :
    selectContentInteractive candidates u =
      Except.error SelectError.userCancelled := by
  have hget : candidates.adTimecodes[u.adIndex]? =
      some (candidates.adTimecodes[u.adIndex]) :=
    List.getElem?_eq_getElem had
  simp [selectContentInteractive, hget, hconfirm]

/-- Witness for C6 at a concrete candidate set and a concrete declining
user. -/
theorem C6_witness :
    selectContentInteractive
      ⟨["t".data], ["n".data], [["00:05:30".data]]⟩
      ⟨false, [], false, [], 0, false⟩ =
      Except.error SelectError.userCancelled :=
  C6_decline_confirmation_cancels _ _ rfl (by decide)

/-- C7: with an empty media path, neither revision of `UploadDraft` ever
invokes the full `PublishEpisode` upload — the draft-title revision makes
exactly the draft-title call, and the skip revision makes no call at all. -/
theorem C7_no_publish_without_media (content : SelectedContent)
    (draftTitleResult publishResult1 publishResult2 : Except Unit Unit) :
    (uploadDraft [] content draftTitleResult publishResult1).2 =
      [Art19Call.uploadDraftTitle content.title] ∧
    (uploadDraftSkip [] content publishResult2).2 = [] := by
  constructor
  · cases draftTitleResult <;> rfl
  · rfl

/-- C8: the redeploy command makes zero outbound calls in dry-run mode, and
fails when the webhook URL is unconfigured, whether or not dry-run is
set. -/
theorem C8_redeploy_dry_run_and_config (deployHookURL : Str) (dryRun : Bool)
    (httpResult : Except Unit Nat) :
    (step3Run deployHookURL true httpResult).2 = [] ∧
    (step3Run [] dryRun httpResult).1 = Except.error () := by
  constructor
  · unfold step3Run
    by_cases h : deployHookURL = []
    · rw [if_pos h]
    · rw [if_neg h]
      rfl
  · rfl

/-- C9: when a show-page document contains no episode deep link matching the
platform pattern, the Spotify and Apple Podcasts lookups both return the
show URL with no error. -/
theorem C9_deeplink_fallback (showURL body1 body2 : Str)
    (hs : findSpotifyURL body1 = none) (ha : findAppleURL body2 = none) :
    getLatestSpotifyURL showURL (Except.ok body1) = Except.ok showURL ∧
    getLatestApplePodcastURL showURL (Except.ok body2) = Except.ok showURL := by
  constructor
  · simp [getLatestSpotifyURL, hs]
  · simp [getLatestApplePodcastURL, ha]

/-- Witness for C9 on a concrete show page without any matching deep
link. -/
theorem C9_witness :
    getLatestSpotifyURL "https://example.com/show".data
      (Except.ok "<html>no episode links here</html>".data) =
      Except.ok "https://example.com/show".data ∧
    getLatestApplePodcastURL "https://example.com/show".data
      (Except.ok "<html>no episode links here</html>".data) =
      Except.ok "https://example.com/show".data :=
  C9_deeplink_fallback _ _ _ (by decide) (by decide)

/-- C10: fetching the latest episode title returns the first item title in
document order when the feed has at least one item, and an error when the
feed has zero items. -/
theorem C10_latest_episode_title (channelTitle channelDesc : Str)
    (item : RSSItem) (rest : List RSSItem) :
    getLatestEpisodeTitle (Except.ok ⟨⟨channelTitle, channelDesc, item :: rest⟩⟩) =
      Except.ok item.title ∧
    getLatestEpisodeTitle (Except.ok ⟨⟨channelTitle, channelDesc, []⟩⟩) =
      Except.error () :=
  ⟨rfl, rfl⟩
